import Mathlib

/-!
Verification of the DMS-Client connectivity core: a shallow embedding in Lean 4 of
the reconnection engine (`dms_reconnect.c`), shadow synchronizer (`dms_shadow.c`),
connection manager (`dms_aws_iot.c`) and command parser (`dms_command.c`),
together with proofs about the backoff algorithm, the retry state machine,
the GET handshake, and delta-command classification.

Machine integers are modelled as `Nat` with explicit reduction modulo `2^32`
(or `2^64`) at every operation where the C code can overflow.  C strings are
modelled as `List Nat` (byte values) where the code does arithmetic on the
characters, and as `List Char` where it only compares and copies them.
-/

namespace DMS

/-- `uint32_t` wrap-around. -/
def u32 (x : Nat) : Nat := x % 4294967296

/-- `uint64_t` wrap-around. -/
def u64 (x : Nat) : Nat := x % 18446744073709551616

/-- `uint32_t` subtraction `a - b` (two's complement wrap), for `a b < 2^32`. -/
def u32sub (a b : Nat) : Nat := (a + 4294967296 - b % 4294967296) % 4294967296

/-! ## Backoff calculator (`dms_reconnect.c`)

Configuration constants from `demo_config.h`. -/

def MAC_SEED_MULTIPLIER : Nat := 1

def MAC_SEED_MAX_OFFSET : Nat := 10

/-- `CLIENT_IDENTIFIER` from `demo_config.h`, as byte values. -/
def CLIENT_IDENTIFIER : List Nat := "benq-dms-test-ABA1AE692AAE".data.map Char.toNat

def DMS_CLIENT_ID_PREFIX_LENGTH : Nat := 14

def DMS_MAC_SUFFIX_LENGTH : Nat := 12

/-- The 6×4 prime matrix `prime_matrix` of `dms_reconnect.c`. -/
def prime_matrix : List (List Nat) :=
  [[271, 277, 281, 283],
   [293, 307, 311, 313],
   [317, 331, 337, 347],
   [349, 353, 359, 367],
   [373, 379, 383, 389],
   [397, 401, 409, 419]]

/-- The 8×6 path selector `prime_path_matrix`. -/
def prime_path_matrix : List (List Nat) :=
  [[0, 1, 2, 3, 4, 5],
   [0, 2, 1, 3, 5, 4],
   [0, 1, 3, 5, 4, 2],
   [5, 4, 3, 2, 1, 0],
   [0, 3, 1, 4, 2, 5],
   [2, 0, 4, 1, 5, 3],
   [0, 2, 4, 1, 3, 5],
   [1, 3, 0, 5, 2, 4]]

/-- The 24×4 matrix `multidimensional_time_matrix`. -/
def multidimensional_time_matrix : List (List Nat) :=
  [[67, 71, 73, 79],
   [83, 89, 97, 101],
   [103, 107, 109, 113],
   [127, 131, 137, 139],
   [149, 151, 157, 163],
   [167, 173, 179, 181],
   [191, 193, 197, 199],
   [211, 223, 227, 229],
   [233, 239, 241, 251],
   [257, 263, 269, 271],
   [277, 281, 283, 293],
   [307, 311, 313, 317],
   [331, 337, 347, 349],
   [353, 359, 367, 373],
   [379, 383, 389, 397],
   [401, 409, 419, 421],
   [431, 433, 439, 443],
   [449, 457, 461, 463],
   [467, 479, 487, 491],
   [499, 503, 509, 521],
   [523, 541, 547, 557],
   [563, 569, 571, 577],
   [587, 593, 599, 601],
   [607, 613, 617, 619]]

/-- The 4×4 matrix `sub_segment_strategy`. -/
def sub_segment_strategy : List (List Nat) :=
  [[0, 1, 2, 3],
   [1, 2, 0, 3],
   [0, 3, 1, 2],
   [2, 0, 3, 1]]

/-- The hour-rotation seed table `time_seeds` in `calculate_seed_from_mac`. -/
def time_seeds : List Nat :=
  [0x9E3779B9, 0xC6EF3720, 0x5BD1E995, 0x85EBCA6B,
   0xD2B54394, 0xFEEDBEEF, 0xCAFEBABE, 0xDEADBEEF,
   0x12345678, 0x87654321, 0xABCDEF01, 0x13579BDF,
   0x2468ACE0, 0x97531BDF, 0x1A2B3C4D, 0x5E6F7A8B,
   0x9C0D1E2F, 0x3A4B5C6D, 0x7E8F9A0B, 0x1C2D3E4F,
   0x5A6B7C8D, 0x9E0F1A2B, 0x3C4D5E6F, 0x7A8B9C0D]

/-- The 32 `quantum_seeds` of `quantum_multidimensional_hash`. -/
def quantum_seeds : List Nat :=
  [0x9E3779B9, 0xC6EF3720, 0x5BD1E995, 0x85EBCA6B,
   0xD2B54394, 0xFEEDBEEF, 0xCAFEBABE, 0xDEADBEEF,
   0x12345678, 0x87654321, 0xABCDEF01, 0x13579BDF,
   0x2468ACE0, 0x97531BDF, 0x1A2B3C4D, 0x5E6F7A8B,
   0x9C0D1E2F, 0x3A4B5C6D, 0x7E8F9A0B, 0x1C2D3E4F,
   0x5A6B7C8D, 0x9E0F1A2B, 0x3C4D5E6F, 0x7A8B9C0D,
   0x1E2F3A4B, 0x5C6D7E8F, 0x9A0B1C2D, 0x3E4F5A6B,
   0x7C8D9E0F, 0x1A2B3C4D, 0x5E6F7A8B, 0x9C0D1E2F]

/-- The 32 `hash_multipliers` of `quantum_multidimensional_hash`. -/
def hash_multipliers : List Nat :=
  [33, 37, 41, 43, 47, 53, 59, 61,
   67, 71, 73, 79, 83, 89, 97, 101,
   103, 107, 109, 113, 127, 131, 137, 139,
   149, 151, 157, 163, 167, 173, 179, 181]

/-- `calculate_mac_matrix_signature`: three-layer feature extraction from the MAC
string (weighted character sum, position-sensitive xor, length factor),
`uint32_t` arithmetic throughout. -/
def calculate_mac_matrix_signature (mac : List Nat) : Nat :=
  if mac.length = 0 then 0
  else
    let len := mac.length
    let s1 := (List.range len).foldl
      (fun sg i => u32 (sg + mac.getD i 0 * (i * 7 + 1))) 0
    let s2 := (List.range len).foldl
      (fun sg i => sg ^^^ u32 (mac.getD i 0 <<< (i % 4 * 8))) s1
    u32 (s2 * (len * 11 + 13))

/-- `combine_prime_matrix_offsets`: walks `time_slot` steps through the prime
matrix, accumulating primes with a non-linear modulation after the first step.
`t` is the `time(NULL)` reading (the C code truncates it to `uint32_t` before
dividing by 900). -/
def combine_prime_matrix_offsets (mac : List Nat) (time_slot : Nat) (t : Nat) : Nat :=
  let mac_signature := calculate_mac_matrix_signature mac
  (List.range time_slot).foldl
    (fun cumulative step =>
      let step_signature := u32 (mac_signature + step * 17)
      let step_path := step_signature % 8
      let step_row := (prime_path_matrix.getD step_path []).getD (step % 6) 0
      let step_precision := u32 (step_signature + u32 t / 900) % 4
      let step_prime := (prime_matrix.getD step_row []).getD step_precision 0
      let c1 := u32 (cumulative + step_prime)
      if step > 0 then u32 (c1 + u32 (c1 * 31) % 127) else c1)
    0

/-- `calculate_multidimensional_mac_features`: four overlapping-quarter hashes of
the MAC string with distinct initial values and shift amounts; returned as a
4-element list (C writes into `features[4]`). -/
def calculate_multidimensional_mac_features (mac : List Nat) : List Nat :=
  if mac.length = 0 then [1, 1, 1, 1]
  else
    let len := mac.length
    let f0 := (List.range (len / 4 + 1)).foldl
      (fun f i => if i < len then u32 (u32 (f <<< 5) + f + mac.getD i 0) else f) 5381
    let f1 := (List.range' (len / 4) (len / 2 + 1 - len / 4)).foldl
      (fun f i => if i < len then u32 (u32 (f <<< 3) + f + mac.getD i 0) else f) 7919
    let f2 := (List.range' (len / 2) (len * 3 / 4 + 1 - len / 2)).foldl
      (fun f i => if i < len then u32 (u32 (f <<< 7) + f + mac.getD i 0) else f) 65537
    let f3 := (List.range' (len * 3 / 4) (len - len * 3 / 4)).foldl
      (fun f i => u32 (u32 (f <<< 2) + f + mac.getD i 0)) 2147483647
    [f0, f1, f2, f3]

/-- `allocate_primary_time_segment`: prime-weighted 64-bit combination of the
four MAC features, reduced to one of 24 primary segments. -/
def allocate_primary_time_segment (mac : List Nat) : Nat :=
  let fs := calculate_multidimensional_mac_features mac
  let weighted_sum :=
    u64 (fs.getD 0 0 * 7 + fs.getD 1 0 * 11 + fs.getD 2 0 * 13 + fs.getD 3 0 * 17)
  weighted_sum % 24

/-- `allocate_sub_time_segment`: the strategy index changes every 15 minutes
(C computes `(uint32_t)(current_time / 900) % 16`). -/
def allocate_sub_time_segment (mac : List Nat) (primary_segment : Nat) (t : Nat) : Nat :=
  let fs := calculate_multidimensional_mac_features mac
  let time_factor := u32 (t / 900) % 16
  let strategy := u32 (fs.getD 0 0 + time_factor) % 4
  let sub_position := u32 (fs.getD 1 0 + primary_segment * 23) % 4
  (sub_segment_strategy.getD strategy []).getD sub_position 0

/-- `calculate_multidimensional_cumulative_offset`: sums all complete primary
segments (with a per-segment 10–39s gap adjustment) and then the sub-segments
of the target primary segment (with a 1–15s micro adjustment). -/
def calculate_multidimensional_cumulative_offset
    (mac : List Nat) (target_primary target_sub : Nat) : Nat :=
  let fs := calculate_multidimensional_mac_features mac
  let phase1 := (List.range target_primary).foldl
    (fun cumulative primary =>
      let c1 := (List.range 4).foldl
        (fun c sub => u32 (c + (multidimensional_time_matrix.getD primary []).getD sub 0))
        cumulative
      let gap_adjustment := fs.getD (primary % 4) 0 % 30 + 10
      u32 (c1 + gap_adjustment))
    0
  (List.range target_sub).foldl
    (fun cumulative sub =>
      let c1 := u32 (cumulative + (multidimensional_time_matrix.getD target_primary []).getD sub 0)
      let micro_adjustment := fs.getD sub 0 % 15 + 1
      u32 (c1 + micro_adjustment))
    phase1

/-- `optimize_multidimensional_distribution`: 64-bit golden-ratio hash of the
base offset and the MAC features; note the C reduction `% UINT32_MAX`
(modulo `2^32 - 1`, not `2^32`) before the 10-minute time term is added. -/
def optimize_multidimensional_distribution (base_offset : Nat) (mac : List Nat) (t : Nat) : Nat :=
  let fs := calculate_multidimensional_mac_features mac
  let optimization_hash := (List.range 4).foldl
    (fun h i => u64 ((h ^^^ u64 (fs.getD i 0 <<< (i * 8))) * 0x9E3779B97F4A7C15))
    (u64 base_offset)
  let time_optimization := u32 t / 600 % 300
  u32 (optimization_hash % 4294967295 + time_optimization)

/-- One dimension of `quantum_multidimensional_hash`: the per-dimension seed and
multiplier drive one of four hash strategies chosen by `dimension % 4`
(DJB2 variant, FNV-1a variant, SDBM variant, chaotic hash). -/
def quantum_hash_dimension (mac : List Nat) (dimension : Nat) : Nat :=
  let seed := quantum_seeds.getD dimension 0
  let multiplier := hash_multipliers.getD dimension 0
  match dimension % 4 with
  | 0 => mac.foldl (fun h c => u32 (u32 (u32 (h <<< 5) + h) * multiplier + c)) seed
  | 1 => mac.foldl (fun h c => u32 ((h ^^^ c) * multiplier)) seed
  | 2 => mac.foldl (fun h c =>
      u32 (u32sub (u32 (c + u32 (h <<< 6) + u32 (h <<< 16))) h * multiplier)) seed
  | _ => mac.foldl (fun h c =>
      let h1 := u32 ((u32 (h <<< 7) ^^^ h >>> 3) + c * multiplier)
      h1 ^^^ u32 (h1 >>> 11 + u32 (h1 <<< 13))) seed

/-- Number of set bits among the low 32 bits (the `bit_scatter` loop). -/
def popcount32 (n : Nat) : Nat :=
  (List.range 32).foldl (fun acc bit => acc + n >>> bit % 2) 0

/-- The dispersion score used to pick the best quantum dimension:
bit balance (ideal is 16 ones) times 100 plus a value-distribution term. -/
def dispersion_score (hash : Nat) : Nat :=
  let bit_scatter := popcount32 hash
  let bit_balance := 32 - (if bit_scatter ≥ 16 then bit_scatter - 16 else 16 - bit_scatter)
  let value_balance := hash % 1000 + hash >>> 16 % 1000
  bit_balance * 100 + value_balance

/-- `quantum_multidimensional_hash`: computes the 32 per-dimension hashes and
returns the one with the strictly highest dispersion score (first maximum wins;
the C loop starts from `best_hash = quantum_hashes[0]`, `best_score = 0`). -/
def quantum_multidimensional_hash (mac : List Nat) : Nat :=
  if mac.length = 0 then 1
  else
    let best := (List.range 32).foldl
      (fun best dimension =>
        let hash := quantum_hash_dimension mac dimension
        let score := dispersion_score hash
        if score > best.2 then (hash, score) else best)
      (quantum_hash_dimension mac 0, 0)
    if best.1 > 0 then best.1 else 1

/-- `calculate_mac_segment_hash`: segment-wise hash of prefix, middle and suffix
of the MAC with a non-linear combination.  For `0 < length < 6` the C code
calls `calculate_seed_from_mac`, which calls straight back into this function:
that mutual call never terminates, and no caller reaches it (the seed string is
either the 12-character MAC suffix or `"DEFAULT"`); the model maps that branch
to 0 and every theorem stays in the `length = 0 ∨ length ≥ 6` domain. -/
def calculate_mac_segment_hash (mac : List Nat) : Nat :=
  if mac.length = 0 then 1
  else if mac.length < 6 then 0
  else
    let len := mac.length
    let prefix_hash := (List.range 4).foldl
      (fun h i => if i < len then u32 (u32 (h <<< 5) + h + mac.getD i 0) else h) 5381
    let middle_start := if len ≥ 8 then 4 else len / 2
    let middle_end := if len ≥ 8 then 8 else len * 3 / 4
    let middle_hash := (List.range' middle_start (middle_end - middle_start)).foldl
      (fun h i => if i < len then u32 (u32 (h <<< 3) + h + mac.getD i 0) else h) 7919
    let suffix_start := if len ≥ 8 then len - 4 else len * 3 / 4
    let suffix_hash := (List.range' suffix_start (len - suffix_start)).foldl
      (fun h i => u32 (u32 (h <<< 7) + h + mac.getD i 0)) 65537
    let combined := prefix_hash ^^^ u32 (middle_hash <<< 11) ^^^ suffix_hash >>> 5
    let combined2 :=
      u32 (combined + (u32 (prefix_hash * middle_hash) ^^^ u32 (suffix_hash * 0x9E3779B9)))
    if combined2 > 0 then combined2 else 1

/-- `select_quantum_dimension`: position-weighted character sum plus a time
influence, reduced to one of the 32 dimensions. -/
def select_quantum_dimension (mac : List Nat) (time_factor : Nat) : Nat :=
  let mac_signature := (List.range mac.length).foldl
    (fun s i => u32 (s + mac.getD i 0 * (i + 1))) 0
  let time_influence := time_factor % 8
  u32 (mac_signature + time_influence) % 32

/-- `calculate_seed_from_mac`: hour-rotated salt, quantum hash, segment hash and
DJB2 hash combined by the "quantum superposition" mixing steps.  `t` is the
`time(NULL)` reading taken inside the function. -/
def calculate_seed_from_mac (mac : List Nat) (t : Nat) : Nat :=
  if mac.length = 0 then 1
  else
    let hour_rotation := u32 (t / 3600) % 24
    let dynamic_salt := time_seeds.getD hour_rotation 0
    let quantum_hash := quantum_multidimensional_hash mac
    let mac_segment_hash := calculate_mac_segment_hash mac
    let djb2_hash := mac.foldl (fun h c => u32 (u32 (h <<< 5) + h + c)) 5381
    let selected_dimension := select_quantum_dimension mac (u32 t)
    let dimension_bonus := u32 (selected_dimension * 0x9E3779B9) % 2048
    let q1 := quantum_hash ^^^ mac_segment_hash ^^^ djb2_hash ^^^ dynamic_salt
    let q2 := u32 (q1 + u32 (quantum_hash * mac_segment_hash) % 4096)
    let q3 := q2 ^^^ u32 (djb2_hash * dynamic_salt) % 2048
    let q4 := u32 (q3 + dimension_bonus)
    let q5 := q4 ^^^ u32 (hour_rotation * 0x01010101)
    let q6 := u32 (q5 * 0x9E3779B9)
    if q6 > 0 then q6 else 1

/-- `calculate_time_slot_offset`: six-layer combination of the multidimensional
time-segment offset, the prime-matrix offset, the distribution optimizer, the
30-minute time modulation and the feature-xor uniformity adjustment, finished
by a golden-ratio hash shifted right by 6. -/
def calculate_time_slot_offset (mac : List Nat) (t : Nat) : Nat :=
  if mac.length = 0 then 0
  else
    let primary_segment := allocate_primary_time_segment mac
    let sub_segment := allocate_sub_time_segment mac primary_segment t
    let multidim_offset :=
      calculate_multidimensional_cumulative_offset mac primary_segment sub_segment
    let mac_hash := calculate_seed_from_mac mac t
    let legacy_time_slot := mac_hash % 12
    let matrix_offset := combine_prime_matrix_offsets mac legacy_time_slot t
    let hybrid_offset := u32 (multidim_offset + matrix_offset / 4)
    let optimized_offset := optimize_multidimensional_distribution hybrid_offset mac t
    let time_modulation := u32 t / 1800 % 120
    let fs := calculate_multidimensional_mac_features mac
    let uniformity_adjustment :=
      (fs.getD 0 0 ^^^ fs.getD 1 0 ^^^ fs.getD 2 0 ^^^ fs.getD 3 0) % 60
    let total_offset := u32 (optimized_offset + time_modulation + uniformity_adjustment)
    u32 (total_offset * 0x9E3779B9) >>> 6

/-- The environment a backoff evaluation reads from the system: the
`time(NULL)` second count, the `clock_gettime` nanosecond field, the process id
and the stack address sampled for entropy. -/
structure BackoffEnv where
  t : Nat
  ns : Nat
  pid : Nat
  stack_addr : Nat
  deriving Repr, DecidableEq

/-- `add_cascading_jitter`: five jitter layers (MAC, timestamp, retry-adaptive,
nanosecond, system entropy), higher-order interaction terms, a chaos factor,
and the retry-dependent range control, added onto `base_delay`.  The
`clock_gettime` call is assumed to succeed (on failure the C code leaves the
nanosecond terms zero but still reads the uninitialized `ts` in the chaos
factor). -/
def add_cascading_jitter (base_delay retry_count : Nat) (mac : List Nat) (e : BackoffEnv) : Nat :=
  let mac_hash := calculate_mac_segment_hash mac
  let mac_jitter := mac_hash % 20 + 1
  let time_jitter := u32 e.t % 25 + 5
  let retry_jitter_base := u32 (15 + retry_count * 10)
  let retry_jitter := u32 e.t % retry_jitter_base + 1
  let pure_nano := e.ns % 1000000
  let nano_oscillation := pure_nano / 25000 % 20
  let nano_cycle_break := (u32 (pure_nano * 7) + e.t * 11) % 15
  let nano_jitter := u32 (e.ns / 1000000 % 45 + nano_cycle_break)
  let process_entropy := u32 (u32 e.pid * u32 e.t) % 25
  let stack_entropy := (e.stack_addr &&& 0xFFF) % 18
  let entropy_jitter := u32 (process_entropy + stack_entropy)
  let tj0 := u32 (mac_jitter + time_jitter + retry_jitter +
                  nano_jitter + nano_oscillation + entropy_jitter)
  let tj1 := u32 (tj0 + u32 (mac_jitter * nano_jitter) % 12)
  let tj2 := u32 (tj1 + u32 (retry_count * nano_oscillation) % 10)
  let tj3 := u32 (tj2 + u32 (time_jitter * entropy_jitter) % 8)
  let chaos_factor := u32 ((mac_hash ^^^ u32 e.ns) * 0x9E3779B9) % 15
  let tj4 := u32 (tj3 + chaos_factor)
  let max_jitter0 := u32 (120 + retry_count * 20)
  let max_jitter := if max_jitter0 > 300 then 300 else max_jitter0
  let total_jitter :=
    if tj4 > max_jitter then u32 (max_jitter * 2 / 3 + tj4 % (max_jitter / 3)) else tj4
  u32 (base_delay + total_jitter)

/-- `calculate_backoff_delay_with_seed`: exponential base delay, MAC random
offset, time-slot dispersion and cascading jitter, clamped to
`max_delay_seconds`.  `base_delay_seconds`/`max_delay_seconds` are the fields
the C function reads from `g_reconnect_ctx`.  The C shift `1 << retry_count`
is undefined for `retry_count ≥ 31`; the model reduces it modulo `2^32`
(every theorem below that depends on the base either uses a small retry count
or holds for any value of this term). -/
def calculate_backoff_delay_with_seed
    (base_delay_seconds max_delay_seconds : Nat)
    (retry_count : Nat) (mac : List Nat) (e : BackoffEnv) : Nat :=
  let base_delay := u32 (base_delay_seconds * u32 (1 <<< retry_count))
  let seed := calculate_seed_from_mac mac e.t
  let random_offset := u32 (seed % MAC_SEED_MAX_OFFSET * MAC_SEED_MULTIPLIER)
  let preliminary_delay := u32 (base_delay + random_offset)
  let time_slot_offset := calculate_time_slot_offset mac e.t
  let slot_dispersed_delay := u32 (preliminary_delay + time_slot_offset)
  let jittered_delay := add_cascading_jitter slot_dispersed_delay retry_count mac e
  if jittered_delay > max_delay_seconds then max_delay_seconds else jittered_delay

/-! ## Reconnection engine state machine (`dms_reconnect.c`) -/

/-- `DMSErrorCode_t` / `dms_result_t` from `demo_config.h`. -/
inductive dms_result_t where
  | DMS_SUCCESS
  | DMS_ERROR_INVALID_PARAMETER
  | DMS_ERROR_NETWORK_FAILURE
  | DMS_ERROR_MQTT_FAILURE
  | DMS_ERROR_TLS_FAILURE
  | DMS_ERROR_MEMORY_ALLOCATION
  | DMS_ERROR_FILE_NOT_FOUND
  | DMS_ERROR_TIMEOUT
  | DMS_ERROR_RECONNECT_FAILED
  | DMS_ERROR_SHADOW_FAILURE
  | DMS_ERROR_DEVICE_INFO_UNAVAILABLE
  | DMS_ERROR_UCI_CONFIG_FAILED
  | DMS_ERROR_SYSTEM_FILE_ACCESS
  | DMS_ERROR_REGISTRATION_FAILED
  | DMS_ERROR_PINCODE_FAILED
  | DMS_ERROR_BDID_CALCULATION
  | DMS_ERROR_UNKNOWN
  deriving Repr, DecidableEq

/-- `ConnectionState_t` from `demo_config.h` (`dms_reconnect_state_t`). -/
inductive ConnectionState_t where
  | CONNECTION_STATE_DISCONNECTED
  | CONNECTION_STATE_CONNECTING
  | CONNECTION_STATE_CONNECTED
  | CONNECTION_STATE_RECONNECTING
  | CONNECTION_STATE_ERROR
  deriving Repr, DecidableEq

/-- `dms_reconnect_config_t`: the three fields `dms_reconnect_init` reads. -/
structure dms_reconnect_config_t where
  max_retry_attempts : Nat
  base_delay_seconds : Nat
  max_delay_seconds : Nat
  deriving Repr, DecidableEq

/-- `dms_reconnect_context_t` (`g_reconnect_ctx`).  The injected interface is
kept as three booleans recording which function pointers are non-NULL; the
functions themselves are supplied to `dms_reconnect_attempt` as the results
they would return.  The cached `seed_value` field is omitted: it is written at
init and never read by any operation. -/
structure dms_reconnect_context_t where
  state : ConnectionState_t
  retry_count : Nat
  total_reconnects : Nat
  next_retry_delay_seconds : Nat
  last_connect_time : Nat
  mac_address_seed : List Nat
  max_retry_attempts : Nat
  base_delay_seconds : Nat
  max_delay_seconds : Nat
  has_connect : Bool
  has_disconnect : Bool
  has_restart_shadow : Bool
  initialized : Bool
  deriving Repr, DecidableEq

/-- `initialize_mac_address_seed`: the stored seed is the last 12 characters of
`CLIENT_IDENTIFIER` when the identifier is long enough, else `"DEFAULT"`. -/
def initialize_mac_address_seed : List Nat :=
  if CLIENT_IDENTIFIER.length ≥ DMS_CLIENT_ID_PREFIX_LENGTH + DMS_MAC_SUFFIX_LENGTH then
    CLIENT_IDENTIFIER.drop (CLIENT_IDENTIFIER.length - DMS_MAC_SUFFIX_LENGTH)
  else "DEFAULT".data.map Char.toNat

/-- `dms_reconnect_init`: zeroes the context, stores the configuration, resets
the counters and derives the MAC seed. -/
def dms_reconnect_init (config : dms_reconnect_config_t) : dms_reconnect_context_t :=
  { state := .CONNECTION_STATE_DISCONNECTED
    retry_count := 0
    total_reconnects := 0
    next_retry_delay_seconds := config.base_delay_seconds
    last_connect_time := 0
    mac_address_seed := initialize_mac_address_seed
    max_retry_attempts := config.max_retry_attempts
    base_delay_seconds := config.base_delay_seconds
    max_delay_seconds := config.max_delay_seconds
    has_connect := false
    has_disconnect := false
    has_restart_shadow := false
    initialized := true }

/-- `dms_reconnect_register_interface`: records which of the three injected
function pointers are non-NULL; a no-op before `init`. -/
def dms_reconnect_register_interface (ctx : dms_reconnect_context_t)
    (connect disconnect restart_shadow : Bool) : dms_reconnect_context_t :=
  if ctx.initialized then
    { ctx with has_connect := connect, has_disconnect := disconnect,
               has_restart_shadow := restart_shadow }
  else ctx

/-- `dms_reconnect_should_retry`. -/
def dms_reconnect_should_retry (ctx : dms_reconnect_context_t) : Bool :=
  ctx.initialized && decide (ctx.retry_count < ctx.max_retry_attempts)

/-- `dms_reconnect_get_next_delay`. -/
def dms_reconnect_get_next_delay (ctx : dms_reconnect_context_t) (e : BackoffEnv) : Nat :=
  if ctx.initialized then
    calculate_backoff_delay_with_seed ctx.base_delay_seconds ctx.max_delay_seconds
      ctx.retry_count ctx.mac_address_seed e
  else 0

/-- `dms_reconnect_reset_state`: Connected, counters reset, total bumped.
`now` is the `time(NULL)` reading. -/
def dms_reconnect_reset_state (ctx : dms_reconnect_context_t) (now : Nat) :
    dms_reconnect_context_t :=
  if ctx.initialized then
    { ctx with state := .CONNECTION_STATE_CONNECTED
               retry_count := 0
               next_retry_delay_seconds := ctx.base_delay_seconds
               last_connect_time := u32 now
               total_reconnects := u32 (ctx.total_reconnects + 1) }
  else ctx

/-- `dms_reconnect_update_failure`: Error state, retry count incremented, next
delay recomputed (the final `retry_count >= max` branch only re-assigns the
Error state already set). -/
def dms_reconnect_update_failure (ctx : dms_reconnect_context_t) (e : BackoffEnv) :
    dms_reconnect_context_t :=
  if ctx.initialized then
    let ctx1 := { ctx with state := .CONNECTION_STATE_ERROR,
                           retry_count := u32 (ctx.retry_count + 1) }
    let next_delay := calculate_backoff_delay_with_seed ctx1.base_delay_seconds
      ctx1.max_delay_seconds ctx1.retry_count ctx1.mac_address_seed e
    { ctx1 with next_retry_delay_seconds := next_delay }
  else ctx

/-- The observable outcome of one `dms_reconnect_attempt` call: the returned
code, the updated context, and the inter-retry sleep performed (`none` when no
`sleep()` call happened, `some d` for `sleep(d)`). -/
structure AttemptOutcome where
  result : dms_result_t
  ctx : dms_reconnect_context_t
  slept : Option Nat
  deriving Repr, DecidableEq

/-- `dms_reconnect_attempt`: set Reconnecting, disconnect, sleep
`next_retry_delay_seconds` iff `retry_count > 0`, then connect.
`connect_result` / `restart_result` are the values the injected `connect` /
`restart_shadow` functions return; `e` is the environment read if the failure
path recomputes the delay, and `now` the `time(NULL)` reading of
`reset_state`.  The C code treats the connection as recovered even when
`restart_shadow` fails (both branches call `reset_state` and return success). -/
def dms_reconnect_attempt (ctx : dms_reconnect_context_t)
    (connect_result restart_result : dms_result_t)
    (e : BackoffEnv) (now : Nat) : AttemptOutcome :=
  if ¬ ctx.initialized then
    { result := .DMS_ERROR_INVALID_PARAMETER, ctx := ctx, slept := none }
  else
    let ctx1 := { ctx with state := .CONNECTION_STATE_RECONNECTING }
    -- interface.disconnect() does not touch the reconnect context
    let slept := if ctx1.retry_count > 0 then some ctx1.next_retry_delay_seconds else none
    if ¬ ctx1.has_connect then
      { result := .DMS_ERROR_INVALID_PARAMETER,
        ctx := dms_reconnect_update_failure ctx1 e, slept := slept }
    else if connect_result = .DMS_SUCCESS then
      if ctx1.has_restart_shadow then
        if restart_result = .DMS_SUCCESS then
          { result := .DMS_SUCCESS, ctx := dms_reconnect_reset_state ctx1 now, slept := slept }
        else
          { result := .DMS_SUCCESS, ctx := dms_reconnect_reset_state ctx1 now, slept := slept }
      else
        { result := .DMS_SUCCESS, ctx := dms_reconnect_reset_state ctx1 now, slept := slept }
    else
      { result := .DMS_ERROR_UNKNOWN,
        ctx := dms_reconnect_update_failure ctx1 e, slept := slept }

/-- `n` consecutive `dms_reconnect_attempt` calls, the `i`-th with environment
`es i`, injected-connect result `cres i` and `time(NULL)` reading `nows i`. -/
def iterate_attempts (es : Nat → BackoffEnv) (cres : Nat → dms_result_t)
    (nows : Nat → Nat) (ctx : dms_reconnect_context_t) : Nat → dms_reconnect_context_t
  | 0 => ctx
  | n + 1 =>
      (dms_reconnect_attempt (iterate_attempts es cres nows ctx n)
        (cres n) .DMS_SUCCESS (es n) (nows n)).ctx

/-! ## JSON document-search collaborator (coreJSON)

Modelled from the spec: the repository's JSON primitives (`JSON_Validate`,
`JSON_Search` from coreJSON, an external dependency not in the repository)
are the "JSON document search" collaborator of spec §6,
`(document, dotted_path) -> (value_slice | not_found)`.  A document is
modelled as a JSON tree; a dotted query descends through object keys, and the
returned slice is the value's text — for string values coreJSON strips the
surrounding quotes, for any other value the slice is its serialization.
A `Json` tree always passes `JSON_Validate`. -/

inductive Json where
  | str (s : List Char)
  | raw (r : List Char)
  | obj (fields : List (List Char × Json))

/-- First-match key lookup in an object's field list. -/
def jsonLookup : List (List Char × Json) → List Char → Option Json
  | [], _ => none
  | (k, v) :: rest, key => if k = key then some v else jsonLookup rest key

/-- One `JSON_Search` step: a key can only be found inside an object value. -/
def jsonSearch1 : Json → List Char → Option Json
  | .obj fields, key => jsonLookup fields key
  | _, _ => none

/-- A dotted `JSON_Search` query such as `"state.upload_logs"`. -/
def jsonSearchPath : Json → List (List Char) → Option Json
  | j, [] => some j
  | j, key :: rest =>
      match jsonSearch1 j key with
      | some v => jsonSearchPath v rest
      | none => none

mutual

/-- Serialization of a JSON tree (the text a slice of an object or raw value
covers). -/
def jsonSerialize : Json → List Char
  | .str s => '"' :: (s ++ ['"'])
  | .raw r => r
  | .obj fields => Char.ofNat 123 :: (jsonSerializeFields fields ++ [Char.ofNat 125])

/-- Comma-separated `"key":value` serialization of object fields. -/
def jsonSerializeFields : List (List Char × Json) → List Char
  | [] => []
  | [(k, v)] => '"' :: (k ++ '"' :: ':' :: jsonSerialize v)
  | (k, v) :: rest =>
      '"' :: (k ++ '"' :: ':' :: (jsonSerialize v ++ ',' :: jsonSerializeFields rest))

end

/-- The value slice `JSON_Search` hands back: string values arrive with the
surrounding quotes already stripped, everything else as its text. -/
def jsonValueSlice : Json → List Char
  | .str s => s
  | j => jsonSerialize j

/-! ## Shadow synchronizer (`dms_shadow.c`) -/

/-- `device_bind_info_t` from `dms_shadow.h`; the C buffers are
`companyName[128]`, `addedBy[64]`, `deviceName[128]`, `companyId[16]`. -/
structure device_bind_info_t where
  companyName : List Char
  addedBy : List Char
  deviceName : List Char
  companyId : List Char
  bound : Bool
  deriving Repr, DecidableEq

/-- The zeroed `device_bind_info_t` (after `memset`). -/
def device_bind_info_zero : device_bind_info_t :=
  { companyName := [], addedBy := [], deviceName := [], companyId := [], bound := false }

/-- One field block of `parse_device_bind_info`: copy the slice into a buffer
of `bufsize` bytes when the key was found and `0 < length < bufsize`, removing
one leading and trailing quote pair if present; otherwise the buffer keeps its
zeroed (empty) contents. -/
def extract_bind_field (info : Json) (key : List Char) (bufsize : Nat) : List Char :=
  match jsonSearch1 info key with
  | some fv =>
      let field := jsonValueSlice fv
      if field.length > 0 ∧ field.length < bufsize then
        if field.headD ' ' = '"' ∧ field.getLastD ' ' = '"' then
          (field.drop 1).dropLast
        else field
      else []
  | none => none.getD []

/-- `parse_device_bind_info`: validates the payload (a `Json` tree always
validates), walks `state` → `reported` → `info`, copies the four fields and
derives `bound`.  A missing `state`/`reported`/`info` is success with the
zeroed bind info. -/
def parse_device_bind_info (payload : Json) : dms_result_t × device_bind_info_t :=
  match jsonSearch1 payload "state".data with
  | none => (.DMS_SUCCESS, device_bind_info_zero)
  | some stateVal =>
    match jsonSearch1 stateVal "reported".data with
    | none => (.DMS_SUCCESS, device_bind_info_zero)
    | some reportedVal =>
      match jsonSearch1 reportedVal "info".data with
      | none => (.DMS_SUCCESS, device_bind_info_zero)
      | some info =>
        let companyName := extract_bind_field info "company_name".data 128
        let addedBy := extract_bind_field info "added_by".data 64
        let deviceName := extract_bind_field info "device_name".data 128
        let companyId := extract_bind_field info "company_id".data 16
        let bound := companyName.length > 0 && companyId.length > 0 &&
                     deviceName.length > 0 && addedBy.length > 0
        (.DMS_SUCCESS,
         { companyName := companyName, addedBy := addedBy,
           deviceName := deviceName, companyId := companyId, bound := bound })

/-- `is_device_bound`. -/
def is_device_bound (bind_info : device_bind_info_t) : Bool :=
  bind_info.bound && bind_info.companyName.length > 0 && bind_info.companyId.length > 0 &&
  bind_info.deviceName.length > 0 && bind_info.addedBy.length > 0

/-- `shadow_context_t`, restricted to the fields the verified operations read
or write (the MQTT interface, reported-state cache and callbacks do not
influence the GET handshake). -/
structure shadow_context_t where
  initialized : Bool
  get_pending : Bool
  get_received : Bool
  bind_info : device_bind_info_t
  deriving Repr, DecidableEq

/-- `dms_shadow_get_document`: marks the GET pending, publishes `"{}"` to the
GET topic (`publish_result` is what the injected publish returns), and rolls
`get_pending` back on publish failure. -/
def dms_shadow_get_document (ctx : shadow_context_t) (publish_result : dms_result_t) :
    dms_result_t × shadow_context_t :=
  if ¬ ctx.initialized then (.DMS_ERROR_INVALID_PARAMETER, ctx)
  else
    let ctx1 := { ctx with get_pending := true, get_received := false }
    if publish_result ≠ .DMS_SUCCESS then
      (publish_result, { ctx1 with get_pending := false })
    else (.DMS_SUCCESS, ctx1)

/-- The five shadow topics of `demo_config.h`. -/
def SHADOW_UPDATE_ACCEPTED_TOPIC : List Char :=
  "$aws/things/benq-dms-test-ABA1AE692AAE/shadow/update/accepted".data

def SHADOW_UPDATE_REJECTED_TOPIC : List Char :=
  "$aws/things/benq-dms-test-ABA1AE692AAE/shadow/update/rejected".data

def SHADOW_UPDATE_DELTA_TOPIC : List Char :=
  "$aws/things/benq-dms-test-ABA1AE692AAE/shadow/update/delta".data

def SHADOW_GET_ACCEPTED_TOPIC : List Char :=
  "$aws/things/benq-dms-test-ABA1AE692AAE/shadow/get/accepted".data

def SHADOW_GET_REJECTED_TOPIC : List Char :=
  "$aws/things/benq-dms-test-ABA1AE692AAE/shadow/get/rejected".data

/-- `strstr(hay, pat) != NULL`: the pattern occurs as a contiguous substring. -/
def strstr_finds (pat hay : List Char) : Bool :=
  hay.tails.any fun tl => pat.isPrefixOf tl

/-- `shadow_message_handler`: classifies the topic by `strstr` substring tests
in the fixed if/else order, parses bind info and ends the GET handshake on
`get/accepted`, ends it unbound on `get/rejected`, forwards `update/delta` to
the command module (no shadow-context change), and ignores everything else.
`topic?`/`payload?` are `none` for NULL pointers. -/
def shadow_message_handler (ctx : shadow_context_t)
    (topic? : Option (List Char)) (payload? : Option Json) (payload_length : Nat) :
    shadow_context_t :=
  match topic?, payload? with
  | some topic, some payload =>
    if payload_length = 0 then ctx
    else
      let isUpdateAccepted := strstr_finds "/shadow/update/accepted".data topic
      let isUpdateRejected := strstr_finds "/shadow/update/rejected".data topic
      let isUpdateDelta := strstr_finds "/shadow/update/delta".data topic
      let isGetAccepted := strstr_finds "/shadow/get/accepted".data topic
      let isGetRejected := strstr_finds "/shadow/get/rejected".data topic
      if isUpdateAccepted then ctx
      else if isUpdateRejected then ctx
      else if isUpdateDelta then ctx
      else if isGetAccepted then
        let parsed := parse_device_bind_info payload
        { ctx with bind_info := parsed.2, get_received := true, get_pending := false }
      else if isGetRejected then
        { ctx with get_received := false, get_pending := false }
      else ctx
  | _, _ => ctx

/-! ## Connection manager (`dms_aws_iot.c`) -/

/-- `aws_iot_connection_state_t` from `dms_aws_iot.h`. -/
inductive aws_iot_connection_state_t where
  | AWS_IOT_STATE_DISCONNECTED
  | AWS_IOT_STATE_TLS_CONNECTED
  | AWS_IOT_STATE_MQTT_CONNECTED
  | AWS_IOT_STATE_ERROR
  deriving Repr, DecidableEq

/-- The coreMQTT statuses distinguished by
`convert_mqtt_status_to_dms_result`; `MQTTIllegalState` stands for any other
status reaching the `default` arm. -/
inductive MQTTStatus_t where
  | MQTTSuccess
  | MQTTBadParameter
  | MQTTNoMemory
  | MQTTSendFailed
  | MQTTRecvFailed
  | MQTTBadResponse
  | MQTTServerRefused
  | MQTTNoDataAvailable
  | MQTTKeepAliveTimeout
  | MQTTIllegalState
  deriving Repr, DecidableEq

/-- `convert_mqtt_status_to_dms_result`. -/
def convert_mqtt_status_to_dms_result : MQTTStatus_t → dms_result_t
  | .MQTTSuccess => .DMS_SUCCESS
  | .MQTTBadParameter => .DMS_ERROR_INVALID_PARAMETER
  | .MQTTNoMemory => .DMS_ERROR_MEMORY_ALLOCATION
  | .MQTTSendFailed => .DMS_ERROR_NETWORK_FAILURE
  | .MQTTRecvFailed => .DMS_ERROR_NETWORK_FAILURE
  | .MQTTBadResponse => .DMS_ERROR_TLS_FAILURE
  | .MQTTServerRefused => .DMS_ERROR_TLS_FAILURE
  | .MQTTNoDataAvailable => .DMS_ERROR_TIMEOUT
  | .MQTTKeepAliveTimeout => .DMS_ERROR_TIMEOUT
  | .MQTTIllegalState => .DMS_ERROR_MQTT_FAILURE

/-- `aws_iot_context_t` together with the module flag `g_initialized`,
restricted to the fields `publish`/`subscribe` read or write; the registered
process-wide message callback is identified by a number (`none` = NULL). -/
structure aws_iot_context_t where
  initialized : Bool
  state : aws_iot_connection_state_t
  message_callback : Option Nat
  deriving Repr, DecidableEq

/-- `dms_aws_iot_publish`: connection and parameter guards, then
`MQTT_Publish` (whose status the transport collaborator supplies).  The
context is never modified. -/
def dms_aws_iot_publish (ctx : aws_iot_context_t)
    (topic? : Option (List Char)) (payload? : Option (List Char))
    (mqtt_publish_status : MQTTStatus_t) : dms_result_t :=
  if ¬ (ctx.initialized ∧ ctx.state = .AWS_IOT_STATE_MQTT_CONNECTED) then
    .DMS_ERROR_NETWORK_FAILURE
  else
    match topic?, payload? with
    | some _, some _ =>
        if mqtt_publish_status ≠ .MQTTSuccess then
          convert_mqtt_status_to_dms_result mqtt_publish_status
        else .DMS_SUCCESS
    | _, _ => .DMS_ERROR_INVALID_PARAMETER

/-- `dms_aws_iot_subscribe`: connection and parameter guards, registration of
the process-wide message callback (overwriting any earlier one, before
`MQTT_Subscribe` runs), then the subscribe itself. -/
def dms_aws_iot_subscribe (ctx : aws_iot_context_t)
    (topic? : Option (List Char)) (callback? : Option Nat)
    (mqtt_subscribe_status : MQTTStatus_t) : dms_result_t × aws_iot_context_t :=
  if ¬ (ctx.initialized ∧ ctx.state = .AWS_IOT_STATE_MQTT_CONNECTED) then
    (.DMS_ERROR_NETWORK_FAILURE, ctx)
  else
    match topic?, callback? with
    | some _, some callback =>
        let ctx1 := { ctx with message_callback := some callback }
        if mqtt_subscribe_status ≠ .MQTTSuccess then
          (convert_mqtt_status_to_dms_result mqtt_subscribe_status, ctx1)
        else (.DMS_SUCCESS, ctx1)
    | _, _ => (.DMS_ERROR_INVALID_PARAMETER, ctx)

/-! ## Command dispatcher parsing (`dms_command.c`) -/

/-- `DMSCommandType_t` from `demo_config.h`. -/
inductive DMSCommandType_t where
  | DMS_CMD_NONE
  | DMS_CMD_CONTROL_CONFIG_CHANGE
  | DMS_CMD_UPLOAD_LOGS
  | DMS_CMD_FW_UPGRADE
  | DMS_CMD_UNKNOWN
  deriving Repr, DecidableEq

/-- `DMSCommand_t` from `demo_config.h` (`dms_command_t`). -/
structure DMSCommand_t where
  type : DMSCommandType_t
  value : Nat
  key : List Char
  timestamp : Nat
  processed : Bool
  deriving Repr, DecidableEq

/-- The dotted queries `JSON_QUERY_CONTROL_CONFIG`, `JSON_QUERY_UPLOAD_LOGS`,
`JSON_QUERY_FW_UPGRADE` from `demo_config.h`, split at the dots. -/
def JSON_QUERY_CONTROL_CONFIG : List (List Char) :=
  ["state".data, "control-config-change".data]

def JSON_QUERY_UPLOAD_LOGS : List (List Char) :=
  ["state".data, "upload_logs".data]

def JSON_QUERY_FW_UPGRADE : List (List Char) :=
  ["state".data, "fw_upgrade".data]

/-- One `JSON_Search` test of `dms_command_parse_shadow_delta`: the slice of
the value found under the query, provided the search succeeded and
`valueLength > 0` (an empty slice falls through to the next key). -/
def delta_key_hit (payload : Json) (query : List (List Char)) : Option (List Char) :=
  match jsonSearchPath payload query with
  | some v =>
      let slice := jsonValueSlice v
      if slice.length > 0 then some slice else none
  | none => none

/-- The zeroed command record as `dms_command_parse_shadow_delta` initializes
it (`type = DMS_CMD_NONE`, timestamp from `time(NULL)`). -/
def dms_command_zero (t : Nat) : DMSCommand_t :=
  { type := .DMS_CMD_NONE, value := 0, key := [], timestamp := u32 t, processed := false }

/-- `dms_command_parse_shadow_delta`: validates the JSON (a `Json` tree always
validates), then tests `state.control-config-change`, `state.upload_logs` and
`state.fw_upgrade` in that order; the first hit fills the command (value 1
exactly when the slice starts with `'1'`) and returns immediately, and no hit
is still success with `DMS_CMD_NONE`.  `payload? = none` models a NULL
payload pointer. -/
def dms_command_parse_shadow_delta (payload? : Option Json) (payload_len : Nat) (t : Nat) :
    dms_result_t × DMSCommand_t :=
  match payload? with
  | none => (.DMS_ERROR_INVALID_PARAMETER, dms_command_zero t)
  | some payload =>
    if payload_len = 0 then (.DMS_ERROR_INVALID_PARAMETER, dms_command_zero t)
    else
      let cmd0 := dms_command_zero t
      match delta_key_hit payload JSON_QUERY_CONTROL_CONFIG with
      | some slice =>
          (.DMS_SUCCESS,
           { cmd0 with type := .DMS_CMD_CONTROL_CONFIG_CHANGE,
                       value := if slice.headD ' ' = '1' then 1 else 0,
                       key := "control-config-change".data })
      | none =>
        match delta_key_hit payload JSON_QUERY_UPLOAD_LOGS with
        | some slice =>
            (.DMS_SUCCESS,
             { cmd0 with type := .DMS_CMD_UPLOAD_LOGS,
                         value := if slice.headD ' ' = '1' then 1 else 0,
                         key := "upload_logs".data })
        | none =>
          match delta_key_hit payload JSON_QUERY_FW_UPGRADE with
          | some slice =>
              (.DMS_SUCCESS,
               { cmd0 with type := .DMS_CMD_FW_UPGRADE,
                           value := if slice.headD ' ' = '1' then 1 else 0,
                           key := "fw_upgrade".data })
          | none => (.DMS_SUCCESS, cmd0)

/-! ## Concrete fixtures shared by witnesses and counterexamples -/

/-- A fixed environment reading (seconds, nanoseconds, pid, stack address). -/
def sample_env : BackoffEnv := { t := 1000000000, ns := 0, pid := 1234, stack_addr := 2748 }

/-- An initialized, fully registered reconnect context with `retry_count = rc`:
configuration `max_attempts = 10`, `base_delay = 2`, and the largest
configurable `max_delay` (`UINT32_MAX`), so the clamp never hides the jitter. -/
def sample_ctx (rc : Nat) : dms_reconnect_context_t :=
  { state := .CONNECTION_STATE_ERROR
    retry_count := rc
    total_reconnects := 0
    next_retry_delay_seconds := 2
    last_connect_time := 0
    mac_address_seed := initialize_mac_address_seed
    max_retry_attempts := 10
    base_delay_seconds := 2
    max_delay_seconds := 4294967295
    has_connect := true
    has_disconnect := true
    has_restart_shadow := true
    initialized := true }

/-- An initialized shadow context with a GET in flight. -/
def sample_shadow_ctx : shadow_context_t :=
  { initialized := true, get_pending := true, get_received := false,
    bind_info := device_bind_info_zero }

/-- An initialized but disconnected connection-manager context. -/
def sample_disconnected_iot : aws_iot_context_t :=
  { initialized := true, state := .AWS_IOT_STATE_DISCONNECTED, message_callback := none }

/-- An initialized, MQTT-connected connection-manager context. -/
def sample_connected_iot : aws_iot_context_t :=
  { initialized := true, state := .AWS_IOT_STATE_MQTT_CONNECTED, message_callback := none }

/-! ## Theorems -/

/-- C4: whenever `attempt()` runs on an initialized engine with a registered
connect function and the injected `connect()` succeeds, the call returns
success, resets `retry_count` to 0, sets the state to Connected and increments
`total_reconnects` by exactly 1 — for every `restart_shadow` result
(including failure) and whether or not a `restart_shadow` function is
registered. -/
theorem successful_attempt_resets_state (ctx : dms_reconnect_context_t)
    (restart_result : dms_result_t) (e : BackoffEnv) (now : Nat)
    (hinit : ctx.initialized = true) (hconn : ctx.has_connect = true) :
    (dms_reconnect_attempt ctx .DMS_SUCCESS restart_result e now).result = .DMS_SUCCESS ∧
    (dms_reconnect_attempt ctx .DMS_SUCCESS restart_result e now).ctx.retry_count = 0 ∧
    (dms_reconnect_attempt ctx .DMS_SUCCESS restart_result e now).ctx.state =
      .CONNECTION_STATE_CONNECTED ∧
    (dms_reconnect_attempt ctx .DMS_SUCCESS restart_result e now).ctx.total_reconnects =
      u32 (ctx.total_reconnects + 1) := by
  simp [dms_reconnect_attempt, dms_reconnect_reset_state, hinit, hconn]

/-- C4 witness: a concrete successful attempt after three failures, with the
injected `restart_shadow` failing. -/
theorem successful_attempt_resets_state_witness :
    (sample_ctx 3).initialized = true ∧ (sample_ctx 3).has_connect = true ∧
    ((dms_reconnect_attempt (sample_ctx 3) .DMS_SUCCESS .DMS_ERROR_SHADOW_FAILURE
        sample_env 777).result = .DMS_SUCCESS ∧
     (dms_reconnect_attempt (sample_ctx 3) .DMS_SUCCESS .DMS_ERROR_SHADOW_FAILURE
        sample_env 777).ctx.retry_count = 0 ∧
     (dms_reconnect_attempt (sample_ctx 3) .DMS_SUCCESS .DMS_ERROR_SHADOW_FAILURE
        sample_env 777).ctx.state = .CONNECTION_STATE_CONNECTED ∧
     (dms_reconnect_attempt (sample_ctx 3) .DMS_SUCCESS .DMS_ERROR_SHADOW_FAILURE
        sample_env 777).ctx.total_reconnects = u32 ((sample_ctx 3).total_reconnects + 1)) :=
  ⟨rfl, rfl,
   successful_attempt_resets_state (sample_ctx 3) .DMS_ERROR_SHADOW_FAILURE sample_env 777
     rfl rfl⟩

/-- C5: `attempt()` with `retry_count = 0` performs no inter-retry sleep before
invoking the injected `connect()` — for every connect/restart outcome. -/
theorem attempt_no_sleep_on_first_try (ctx : dms_reconnect_context_t)
    (connect_result restart_result : dms_result_t) (e : BackoffEnv) (now : Nat)
    (hinit : ctx.initialized = true) (hrc : ctx.retry_count = 0) :
    (dms_reconnect_attempt ctx connect_result restart_result e now).slept = none := by
  by_cases hcr : connect_result = .DMS_SUCCESS <;>
  by_cases hrs : ctx.has_connect = true <;>
    simp [dms_reconnect_attempt, hinit, hrc, hcr, hrs]

/-- C5 witness: a concrete first attempt (retry count 0, connect failing)
performs no sleep. -/
theorem attempt_no_sleep_on_first_try_witness :
    (sample_ctx 0).initialized = true ∧ (sample_ctx 0).retry_count = 0 ∧
    (dms_reconnect_attempt (sample_ctx 0) .DMS_ERROR_NETWORK_FAILURE .DMS_SUCCESS
       sample_env 0).slept = none :=
  ⟨rfl, rfl,
   attempt_no_sleep_on_first_try (sample_ctx 0) .DMS_ERROR_NETWORK_FAILURE .DMS_SUCCESS
     sample_env 0 rfl rfl⟩

/-- C1 (amended): for every retry count below the attempt budget (indeed for
every context), the delay returned by `get_next_delay()` never exceeds the
configured `max_delay_seconds`; the delay is not non-decreasing in the retry
count (see the counterexample). -/
theorem get_next_delay_le_max_delay (ctx : dms_reconnect_context_t) (e : BackoffEnv)
    (hinit : ctx.initialized = true)
    (hrc : ctx.retry_count < ctx.max_retry_attempts) :
    dms_reconnect_get_next_delay ctx e ≤ ctx.max_delay_seconds := by
  have hmin : ∀ a b : Nat, (if a > b then b else a) ≤ b := by
    intro a b
    split <;> omega
  simp only [dms_reconnect_get_next_delay, hinit, if_true]
  exact hmin _ _

/-- C1 witness: the bound at a concrete initialized context within budget. -/
theorem get_next_delay_le_max_delay_witness :
    (sample_ctx 0).initialized = true ∧
    (sample_ctx 0).retry_count < (sample_ctx 0).max_retry_attempts ∧
    dms_reconnect_get_next_delay (sample_ctx 0) sample_env ≤
      (sample_ctx 0).max_delay_seconds :=
  ⟨rfl, by decide, get_next_delay_le_max_delay (sample_ctx 0) sample_env rfl (by decide)⟩

set_option maxRecDepth 10000 in
/-- C1 counterexample: two identical contexts (base delay 2, `max_delay` set
to the largest configurable value so the clamp never interferes, attempt
budget 10) that differ only in the retry count, both inside
`[0, max_attempts)`, at one fixed environment reading — and the delay at
retry count 1 is strictly smaller than at retry count 0, refuting
"non-decreasing in retry_count". -/
theorem backoff_monotonicity_counterexample :
    (sample_ctx 0).retry_count < (sample_ctx 1).retry_count ∧
    (sample_ctx 1).retry_count < (sample_ctx 1).max_retry_attempts ∧
    dms_reconnect_get_next_delay (sample_ctx 1) sample_env <
      dms_reconnect_get_next_delay (sample_ctx 0) sample_env := by
  refine ⟨by decide, by decide, by decide⟩

/-- C2 (amended): the backoff delay is a deterministic function of the device
identity, the retry count and the full environment reading — two evaluations
that read the same second, the same nanosecond field, the same pid and the
same stack address return the same delay.  Within a short time window this
fails: the delay depends on the nanosecond clock (see the counterexample). -/
theorem backoff_deterministic_in_full_environment (ctx : dms_reconnect_context_t)
    (e1 e2 : BackoffEnv) (ht : e1.t = e2.t) (hns : e1.ns = e2.ns)
    (hpid : e1.pid = e2.pid) (hstack : e1.stack_addr = e2.stack_addr) :
    dms_reconnect_get_next_delay ctx e1 = dms_reconnect_get_next_delay ctx e2 := by
  obtain ⟨t1, n1, p1, s1⟩ := e1
  obtain ⟨t2, n2, p2, s2⟩ := e2
  simp_all

/-- C2 witness: determinism applied at a concrete context and environment. -/
theorem backoff_deterministic_in_full_environment_witness :
    sample_env.t = sample_env.t ∧ sample_env.ns = sample_env.ns ∧
    dms_reconnect_get_next_delay (sample_ctx 0) sample_env =
      dms_reconnect_get_next_delay (sample_ctx 0) sample_env :=
  ⟨rfl, rfl,
   backoff_deterministic_in_full_environment (sample_ctx 0) sample_env sample_env
     rfl rfl rfl rfl⟩

set_option maxRecDepth 10000 in
/-- C2 counterexample: two evaluations for the same identity and retry count
during the same second (`t = 1000000000`), one millisecond apart in the
nanosecond clock, same pid and stack address, return different delays — the
delay is not deterministic over a short time window. -/
theorem backoff_nanosecond_dependence_counterexample :
    (BackoffEnv.mk 1000000000 0 1234 2748).t =
      (BackoffEnv.mk 1000000000 1000000 1234 2748).t ∧
    dms_reconnect_get_next_delay (sample_ctx 0) (BackoffEnv.mk 1000000000 0 1234 2748) ≠
      dms_reconnect_get_next_delay (sample_ctx 0)
        (BackoffEnv.mk 1000000000 1000000 1234 2748) := by
  refine ⟨rfl, by decide⟩

/-- One failing `attempt()` call: Error state, retry count bumped (mod `2^32`),
the initialization/registration flags and the configured maximum preserved. -/
theorem attempt_failure_step (ctx : dms_reconnect_context_t) (cres rres : dms_result_t)
    (e : BackoffEnv) (now : Nat)
    (hinit : ctx.initialized = true) (hconn : ctx.has_connect = true)
    (hfail : cres ≠ .DMS_SUCCESS) :
    (dms_reconnect_attempt ctx cres rres e now).ctx.retry_count = u32 (ctx.retry_count + 1) ∧
    (dms_reconnect_attempt ctx cres rres e now).ctx.state = .CONNECTION_STATE_ERROR ∧
    (dms_reconnect_attempt ctx cres rres e now).ctx.initialized = true ∧
    (dms_reconnect_attempt ctx cres rres e now).ctx.has_connect = true ∧
    (dms_reconnect_attempt ctx cres rres e now).ctx.max_retry_attempts =
      ctx.max_retry_attempts := by
  simp [dms_reconnect_attempt, dms_reconnect_update_failure, hinit, hconn, hfail]

/-- Invariant of `n` consecutive failing attempts: the retry count advances by
exactly `n` (no `uint32_t` wrap within range), flags and configuration are
preserved, and from the first failure on the state is Error. -/
theorem iterate_failed_invariant (es : Nat → BackoffEnv) (cres : Nat → dms_result_t)
    (nows : Nat → Nat) (hfail : ∀ i, cres i ≠ .DMS_SUCCESS)
    (ctx : dms_reconnect_context_t)
    (hinit : ctx.initialized = true) (hconn : ctx.has_connect = true) (n : Nat)
    (hn : ctx.retry_count + n < 4294967296) :
    (iterate_attempts es cres nows ctx n).retry_count = ctx.retry_count + n ∧
    (iterate_attempts es cres nows ctx n).initialized = true ∧
    (iterate_attempts es cres nows ctx n).has_connect = true ∧
    (iterate_attempts es cres nows ctx n).max_retry_attempts = ctx.max_retry_attempts ∧
    (1 ≤ n → (iterate_attempts es cres nows ctx n).state = .CONNECTION_STATE_ERROR) := by
  induction n with
  | zero => simp [iterate_attempts, hinit, hconn]
  | succ k ih =>
    have hk : ctx.retry_count + k < 4294967296 := by omega
    obtain ⟨hrc, hi, hc, hm, _⟩ := ih hk
    obtain ⟨s1, s2, s3, s4, s5⟩ :=
      attempt_failure_step (iterate_attempts es cres nows ctx k) (cres k) .DMS_SUCCESS
        (es k) (nows k) hi hc (hfail k)
    refine ⟨?_, ?_, ?_, ?_, fun _ => ?_⟩
    · show (dms_reconnect_attempt _ _ _ _ _).ctx.retry_count = _
      rw [s1, hrc, u32, Nat.mod_eq_of_lt (by omega)]
      omega
    · exact s3
    · exact s4
    · show (dms_reconnect_attempt _ _ _ _ _).ctx.max_retry_attempts = _
      rw [s5, hm]
    · exact s2

/-- C3: after `init()` and full interface registration, `n ≥ 1` consecutive
failing `attempt()` calls leave `retry_count = n` and the state Error, and
`should_retry()` is true exactly for `n < max_attempts` (for every `n` in the
`uint32_t` range). -/
theorem failed_attempts_retry_count_state
    (config : dms_reconnect_config_t) (es : Nat → BackoffEnv)
    (cres : Nat → dms_result_t) (nows : Nat → Nat)
    (hfail : ∀ i, cres i ≠ .DMS_SUCCESS) (n : Nat) (hn : n < 4294967296) :
    (iterate_attempts es cres nows
      (dms_reconnect_register_interface (dms_reconnect_init config) true true true)
      n).retry_count = n ∧
    (1 ≤ n →
      (iterate_attempts es cres nows
        (dms_reconnect_register_interface (dms_reconnect_init config) true true true)
        n).state = .CONNECTION_STATE_ERROR) ∧
    dms_reconnect_should_retry
      (iterate_attempts es cres nows
        (dms_reconnect_register_interface (dms_reconnect_init config) true true true)
        n) = decide (n < config.max_retry_attempts) := by
  obtain ⟨hrc, hi, _, hm, hs⟩ :=
    iterate_failed_invariant es cres nows hfail
      (dms_reconnect_register_interface (dms_reconnect_init config) true true true)
      rfl rfl n (by simpa [dms_reconnect_register_interface, dms_reconnect_init] using hn)
  have hrc' : (iterate_attempts es cres nows
      (dms_reconnect_register_interface (dms_reconnect_init config) true true true)
      n).retry_count = n := by
    simpa [dms_reconnect_register_interface, dms_reconnect_init] using hrc
  have hm' : (iterate_attempts es cres nows
      (dms_reconnect_register_interface (dms_reconnect_init config) true true true)
      n).max_retry_attempts = config.max_retry_attempts := by
    simpa [dms_reconnect_register_interface, dms_reconnect_init] using hm
  exact ⟨hrc', hs, by simp [dms_reconnect_should_retry, hi, hrc', hm']⟩

/-- C3 witness: two consecutive failing attempts against `max_attempts = 2`:
retry count 2, state Error, and `should_retry()` now false. -/
theorem failed_attempts_retry_count_state_witness :
    (∀ i : Nat, (fun _ => dms_result_t.DMS_ERROR_NETWORK_FAILURE) i ≠ .DMS_SUCCESS) ∧
    ((iterate_attempts (fun _ => sample_env) (fun _ => .DMS_ERROR_NETWORK_FAILURE)
        (fun _ => 0)
        (dms_reconnect_register_interface
          (dms_reconnect_init
            { max_retry_attempts := 2, base_delay_seconds := 2, max_delay_seconds := 300 })
          true true true) 2).retry_count = 2 ∧
     (1 ≤ 2 →
       (iterate_attempts (fun _ => sample_env) (fun _ => .DMS_ERROR_NETWORK_FAILURE)
          (fun _ => 0)
          (dms_reconnect_register_interface
            (dms_reconnect_init
              { max_retry_attempts := 2, base_delay_seconds := 2, max_delay_seconds := 300 })
            true true true) 2).state = .CONNECTION_STATE_ERROR) ∧
     dms_reconnect_should_retry
       (iterate_attempts (fun _ => sample_env) (fun _ => .DMS_ERROR_NETWORK_FAILURE)
          (fun _ => 0)
          (dms_reconnect_register_interface
            (dms_reconnect_init
              { max_retry_attempts := 2, base_delay_seconds := 2, max_delay_seconds := 300 })
            true true true) 2) = decide (2 < 2)) :=
  ⟨(fun _ h => nomatch h),
   failed_attempts_retry_count_state
     { max_retry_attempts := 2, base_delay_seconds := 2, max_delay_seconds := 300 }
     (fun _ => sample_env) (fun _ => .DMS_ERROR_NETWORK_FAILURE) (fun _ => 0)
     (fun _ h => nomatch h) 2 (by decide)⟩

/-- C10: when the publish of the GET request fails, `get_document()` returns
that error with `get_pending` rolled back to `false` and `get_received` still
`false` — a failed GET request never leaves a GET outstanding. -/
theorem get_document_failure_atomic (ctx : shadow_context_t) (publish_result : dms_result_t)
    (hinit : ctx.initialized = true) (hfail : publish_result ≠ .DMS_SUCCESS) :
    (dms_shadow_get_document ctx publish_result).1 = publish_result ∧
    (dms_shadow_get_document ctx publish_result).2.get_pending = false ∧
    (dms_shadow_get_document ctx publish_result).2.get_received = false := by
  simp [dms_shadow_get_document, hinit, hfail]

/-- C10 witness: a concrete failed GET publish. -/
theorem get_document_failure_atomic_witness :
    sample_shadow_ctx.initialized = true ∧
    (dms_result_t.DMS_ERROR_NETWORK_FAILURE ≠ .DMS_SUCCESS) ∧
    ((dms_shadow_get_document sample_shadow_ctx .DMS_ERROR_NETWORK_FAILURE).1 =
       .DMS_ERROR_NETWORK_FAILURE ∧
     (dms_shadow_get_document sample_shadow_ctx .DMS_ERROR_NETWORK_FAILURE).2.get_pending =
       false ∧
     (dms_shadow_get_document sample_shadow_ctx .DMS_ERROR_NETWORK_FAILURE).2.get_received =
       false) :=
  ⟨rfl, by decide,
   get_document_failure_atomic sample_shadow_ctx .DMS_ERROR_NETWORK_FAILURE rfl (by decide)⟩

/-- A get/accepted document whose `state.reported.info` carries all four
binding fields, each a non-empty string, but whose `company_id` value is 16
characters long — too long for the 16-byte `companyId[16]` buffer. -/
def long_company_id_payload : Json :=
  .obj [("state".data,
         .obj [("reported".data,
                .obj [("info".data,
                       .obj [("company_name".data, .str "BenQ".data),
                             ("company_id".data, .str "0123456789ABCDEF".data),
                             ("device_name".data, .str "projector-7".data),
                             ("added_by".data, .str "admin".data)])])])]

/-- C8 counterexample: on `long_company_id_payload` all four fields are
present and non-empty, the parse succeeds, yet `bound = false` and the
`companyId` buffer stays empty, because the 16-character value does not fit
the 16-byte buffer (`fieldLength < sizeof(companyId)` fails). -/
theorem bind_info_buffer_limit_counterexample :
    jsonSearchPath long_company_id_payload
      ["state".data, "reported".data, "info".data, "company_name".data] =
      some (.str "BenQ".data) ∧
    jsonSearchPath long_company_id_payload
      ["state".data, "reported".data, "info".data, "company_id".data] =
      some (.str "0123456789ABCDEF".data) ∧
    jsonSearchPath long_company_id_payload
      ["state".data, "reported".data, "info".data, "device_name".data] =
      some (.str "projector-7".data) ∧
    jsonSearchPath long_company_id_payload
      ["state".data, "reported".data, "info".data, "added_by".data] =
      some (.str "admin".data) ∧
    ("0123456789ABCDEF".data).length = 16 ∧
    (parse_device_bind_info long_company_id_payload).1 = .DMS_SUCCESS ∧
    (parse_device_bind_info long_company_id_payload).2.bound = false ∧
    (parse_device_bind_info long_company_id_payload).2.companyId = [] :=
  ⟨rfl, rfl, rfl, rfl, by decide, rfl, by decide, by decide⟩

/-- C8 (amended): a valid get/accepted document whose `state.reported.info`
object carries all four binding fields as non-empty strings, each short
enough for its destination buffer (`companyName`/`deviceName` < 128,
`addedBy` < 64, `companyId` < 16 bytes) and not itself wrapped in literal
quote characters, parses to `bound = true` with the four fields copied
verbatim; and a valid document with no `state.reported.info` object parses to
`bound = false` with success, not an error. -/
theorem parse_device_bind_info_fields :
    (∀ (payload stateV repV info : Json) (cn ab dn ci : List Char),
       jsonSearch1 payload "state".data = some stateV →
       jsonSearch1 stateV "reported".data = some repV →
       jsonSearch1 repV "info".data = some info →
       jsonSearch1 info "company_name".data = some (.str cn) →
       jsonSearch1 info "added_by".data = some (.str ab) →
       jsonSearch1 info "device_name".data = some (.str dn) →
       jsonSearch1 info "company_id".data = some (.str ci) →
       0 < cn.length → cn.length < 128 →
       0 < ab.length → ab.length < 64 →
       0 < dn.length → dn.length < 128 →
       0 < ci.length → ci.length < 16 →
       ¬(cn.headD ' ' = '"' ∧ cn.getLastD ' ' = '"') →
       ¬(ab.headD ' ' = '"' ∧ ab.getLastD ' ' = '"') →
       ¬(dn.headD ' ' = '"' ∧ dn.getLastD ' ' = '"') →
       ¬(ci.headD ' ' = '"' ∧ ci.getLastD ' ' = '"') →
       parse_device_bind_info payload =
         (.DMS_SUCCESS,
          { companyName := cn, addedBy := ab, deviceName := dn, companyId := ci,
            bound := true })) ∧
    (∀ payload : Json,
       jsonSearchPath payload ["state".data, "reported".data, "info".data] = none →
       parse_device_bind_info payload = (.DMS_SUCCESS, device_bind_info_zero)) := by
  constructor
  · intro payload stateV repV info cn ab dn ci h1 h2 h3 hcn hab hdn hci
      lcn1 lcn2 lab1 lab2 ldn1 ldn2 lci1 lci2 qcn qab qdn qci
    have ecn : extract_bind_field info "company_name".data 128 = cn := by
      unfold extract_bind_field
      rw [hcn]
      show (if cn.length > 0 ∧ cn.length < 128 then
              if cn.headD ' ' = '"' ∧ cn.getLastD ' ' = '"' then (cn.drop 1).dropLast else cn
            else []) = cn
      rw [if_pos ⟨lcn1, lcn2⟩, if_neg qcn]
    have eab : extract_bind_field info "added_by".data 64 = ab := by
      unfold extract_bind_field
      rw [hab]
      show (if ab.length > 0 ∧ ab.length < 64 then
              if ab.headD ' ' = '"' ∧ ab.getLastD ' ' = '"' then (ab.drop 1).dropLast else ab
            else []) = ab
      rw [if_pos ⟨lab1, lab2⟩, if_neg qab]
    have edn : extract_bind_field info "device_name".data 128 = dn := by
      unfold extract_bind_field
      rw [hdn]
      show (if dn.length > 0 ∧ dn.length < 128 then
              if dn.headD ' ' = '"' ∧ dn.getLastD ' ' = '"' then (dn.drop 1).dropLast else dn
            else []) = dn
      rw [if_pos ⟨ldn1, ldn2⟩, if_neg qdn]
    have eci : extract_bind_field info "company_id".data 16 = ci := by
      unfold extract_bind_field
      rw [hci]
      show (if ci.length > 0 ∧ ci.length < 16 then
              if ci.headD ' ' = '"' ∧ ci.getLastD ' ' = '"' then (ci.drop 1).dropLast else ci
            else []) = ci
      rw [if_pos ⟨lci1, lci2⟩, if_neg qci]
    simp [parse_device_bind_info, h1, h2, h3, ecn, eab, edn, eci,
          lcn1, lab1, ldn1, lci1]
  · intro payload hno
    cases hs : jsonSearch1 payload "state".data with
    | none => simp [parse_device_bind_info, hs]
    | some sv =>
      simp only [jsonSearchPath, hs] at hno
      cases hr : jsonSearch1 sv "reported".data with
      | none => simp [parse_device_bind_info, hs, hr]
      | some rv =>
        simp only [hr] at hno
        cases hi : jsonSearch1 rv "info".data with
        | none => simp [parse_device_bind_info, hs, hr, hi]
        | some iv =>
          simp [jsonSearchPath, hi] at hno

/-- C8 witness: a document with all four fields within bounds parses to
`bound = true` with the fields verbatim, and one without an `info` object
parses to `bound = false` with success. -/
theorem parse_device_bind_info_fields_witness :
    parse_device_bind_info
      (.obj [("state".data,
              .obj [("reported".data,
                     .obj [("info".data,
                            .obj [("company_name".data, .str "BenQ".data),
                                  ("company_id".data, .str "42".data),
                                  ("device_name".data, .str "projector-7".data),
                                  ("added_by".data, .str "admin".data)])])])]) =
      (.DMS_SUCCESS,
       { companyName := "BenQ".data, addedBy := "admin".data,
         deviceName := "projector-7".data, companyId := "42".data, bound := true }) ∧
    parse_device_bind_info
      (.obj [("state".data, .obj [("reported".data, .obj [])])]) =
      (.DMS_SUCCESS, device_bind_info_zero) :=
  ⟨parse_device_bind_info_fields.1 _ _ _ _ _ _ _ _ rfl rfl rfl rfl rfl rfl rfl
     (by decide) (by decide) (by decide) (by decide) (by decide) (by decide)
     (by decide) (by decide) (by decide) (by decide) (by decide) (by decide),
   parse_device_bind_info_fields.2 _ rfl⟩

/-- Which `strstr` patterns occur in the real `get/accepted` topic. -/
theorem get_accepted_topic_matches :
    strstr_finds "/shadow/update/accepted".data SHADOW_GET_ACCEPTED_TOPIC = false ∧
    strstr_finds "/shadow/update/rejected".data SHADOW_GET_ACCEPTED_TOPIC = false ∧
    strstr_finds "/shadow/update/delta".data SHADOW_GET_ACCEPTED_TOPIC = false ∧
    strstr_finds "/shadow/get/accepted".data SHADOW_GET_ACCEPTED_TOPIC = true := by
  refine ⟨?_, ?_, ?_, ?_⟩ <;> decide

/-- Which `strstr` patterns occur in the real `get/rejected` topic. -/
theorem get_rejected_topic_matches :
    strstr_finds "/shadow/update/accepted".data SHADOW_GET_REJECTED_TOPIC = false ∧
    strstr_finds "/shadow/update/rejected".data SHADOW_GET_REJECTED_TOPIC = false ∧
    strstr_finds "/shadow/update/delta".data SHADOW_GET_REJECTED_TOPIC = false ∧
    strstr_finds "/shadow/get/accepted".data SHADOW_GET_REJECTED_TOPIC = false ∧
    strstr_finds "/shadow/get/rejected".data SHADOW_GET_REJECTED_TOPIC = true := by
  refine ⟨?_, ?_, ?_, ?_, ?_⟩ <;> decide

/-- C6: the GET handshake invariant.  `get_document()` (publish succeeding)
leaves `get_pending = true, get_received = false`; delivering a message on the
`get/accepted` topic ends the handshake with `get_received = true,
get_pending = false` (whatever the payload parses to); delivering one on the
`get/rejected` topic ends it with `get_received = false, get_pending =
false`. -/
theorem get_handshake_state_machine (ctx : shadow_context_t) (payload : Json)
    (payload_length : Nat) (hinit : ctx.initialized = true) (hlen : payload_length ≠ 0) :
    ((dms_shadow_get_document ctx .DMS_SUCCESS).2.get_pending = true ∧
     (dms_shadow_get_document ctx .DMS_SUCCESS).2.get_received = false) ∧
    ((shadow_message_handler ctx (some SHADOW_GET_ACCEPTED_TOPIC) (some payload)
        payload_length).get_received = true ∧
     (shadow_message_handler ctx (some SHADOW_GET_ACCEPTED_TOPIC) (some payload)
        payload_length).get_pending = false) ∧
    ((shadow_message_handler ctx (some SHADOW_GET_REJECTED_TOPIC) (some payload)
        payload_length).get_received = false ∧
     (shadow_message_handler ctx (some SHADOW_GET_REJECTED_TOPIC) (some payload)
        payload_length).get_pending = false) := by
  obtain ⟨a1, a2, a3, a4⟩ := get_accepted_topic_matches
  obtain ⟨r1, r2, r3, r4, r5⟩ := get_rejected_topic_matches
  refine ⟨?_, ?_, ?_⟩
  · simp [dms_shadow_get_document, hinit]
  · simp [shadow_message_handler, hlen, a1, a2, a3, a4]
  · simp [shadow_message_handler, hlen, r1, r2, r3, r4, r5]

/-- C6 witness: the handshake transitions at a concrete in-flight context and
payload. -/
theorem get_handshake_state_machine_witness :
    sample_shadow_ctx.initialized = true ∧ (2 : Nat) ≠ 0 ∧
    (((dms_shadow_get_document sample_shadow_ctx .DMS_SUCCESS).2.get_pending = true ∧
      (dms_shadow_get_document sample_shadow_ctx .DMS_SUCCESS).2.get_received = false) ∧
     ((shadow_message_handler sample_shadow_ctx (some SHADOW_GET_ACCEPTED_TOPIC)
         (some (.obj [])) 2).get_received = true ∧
      (shadow_message_handler sample_shadow_ctx (some SHADOW_GET_ACCEPTED_TOPIC)
         (some (.obj [])) 2).get_pending = false) ∧
     ((shadow_message_handler sample_shadow_ctx (some SHADOW_GET_REJECTED_TOPIC)
         (some (.obj [])) 2).get_received = false ∧
      (shadow_message_handler sample_shadow_ctx (some SHADOW_GET_REJECTED_TOPIC)
         (some (.obj [])) 2).get_pending = false)) :=
  ⟨rfl, by decide,
   get_handshake_state_machine sample_shadow_ctx (.obj []) 2 rfl (by decide)⟩

/-- C9: a delta payload produces at most one command: the parser tests
`state.control-config-change`, then `state.upload_logs`, then
`state.fw_upgrade`, and the first key hit fills the command and stops the
search; if no recognized key hits, the result is success with `DMS_CMD_NONE`. -/
theorem parse_shadow_delta_priority (payload : Json) (payload_len t : Nat)
    (hlen : payload_len ≠ 0) :
    (∀ slice, delta_key_hit payload JSON_QUERY_CONTROL_CONFIG = some slice →
       dms_command_parse_shadow_delta (some payload) payload_len t =
         (.DMS_SUCCESS,
          { dms_command_zero t with
              type := .DMS_CMD_CONTROL_CONFIG_CHANGE,
              value := if slice.headD ' ' = '1' then 1 else 0,
              key := "control-config-change".data })) ∧
    (∀ slice, delta_key_hit payload JSON_QUERY_CONTROL_CONFIG = none →
       delta_key_hit payload JSON_QUERY_UPLOAD_LOGS = some slice →
       dms_command_parse_shadow_delta (some payload) payload_len t =
         (.DMS_SUCCESS,
          { dms_command_zero t with
              type := .DMS_CMD_UPLOAD_LOGS,
              value := if slice.headD ' ' = '1' then 1 else 0,
              key := "upload_logs".data })) ∧
    (∀ slice, delta_key_hit payload JSON_QUERY_CONTROL_CONFIG = none →
       delta_key_hit payload JSON_QUERY_UPLOAD_LOGS = none →
       delta_key_hit payload JSON_QUERY_FW_UPGRADE = some slice →
       dms_command_parse_shadow_delta (some payload) payload_len t =
         (.DMS_SUCCESS,
          { dms_command_zero t with
              type := .DMS_CMD_FW_UPGRADE,
              value := if slice.headD ' ' = '1' then 1 else 0,
              key := "fw_upgrade".data })) ∧
    (delta_key_hit payload JSON_QUERY_CONTROL_CONFIG = none →
       delta_key_hit payload JSON_QUERY_UPLOAD_LOGS = none →
       delta_key_hit payload JSON_QUERY_FW_UPGRADE = none →
       dms_command_parse_shadow_delta (some payload) payload_len t =
         (.DMS_SUCCESS, dms_command_zero t)) := by
  refine ⟨?_, ?_, ?_, ?_⟩
  · intro slice h1
    simp [dms_command_parse_shadow_delta, hlen, h1]
  · intro slice h1 h2
    simp [dms_command_parse_shadow_delta, hlen, h1, h2]
  · intro slice h1 h2 h3
    simp [dms_command_parse_shadow_delta, hlen, h1, h2, h3]
  · intro h1 h2 h3
    simp [dms_command_parse_shadow_delta, hlen, h1, h2, h3]

/-- A delta payload carrying two recognized keys at once (`upload_logs` and
`fw_upgrade`), and one carrying none. -/
def sample_two_key_delta : Json :=
  .obj [("state".data,
         .obj [("upload_logs".data, .raw "1".data),
               ("fw_upgrade".data, .raw "1".data)])]

def sample_no_key_delta : Json :=
  .obj [("state".data, .obj [("volume".data, .raw "5".data)])]

/-- C9 witness: on the two-key payload only the higher-priority `upload_logs`
command comes out; on the no-key payload the parse succeeds with
`DMS_CMD_NONE`. -/
theorem parse_shadow_delta_priority_witness :
    dms_command_parse_shadow_delta (some sample_two_key_delta) 5 0 =
      (.DMS_SUCCESS,
       { dms_command_zero 0 with
           type := .DMS_CMD_UPLOAD_LOGS, value := 1, key := "upload_logs".data }) ∧
    dms_command_parse_shadow_delta (some sample_no_key_delta) 5 0 =
      (.DMS_SUCCESS, dms_command_zero 0) :=
  ⟨(parse_shadow_delta_priority sample_two_key_delta 5 0 (by decide)).2.1 "1".data rfl rfl,
   (parse_shadow_delta_priority sample_no_key_delta 5 0 (by decide)).2.2.2 rfl rfl rfl⟩

/-- C7: `publish` and `subscribe` fail with an error whenever the connection
state is not MQTT-connected (the context untouched); a successful `subscribe`
registers its callback as the one process-wide message callback, and of two
consecutive registrations the last one wins. -/
theorem publish_subscribe_connection_guard :
    (∀ (ctx : aws_iot_context_t) topic? payload? st,
       ctx.state ≠ .AWS_IOT_STATE_MQTT_CONNECTED →
       dms_aws_iot_publish ctx topic? payload? st = .DMS_ERROR_NETWORK_FAILURE) ∧
    (∀ (ctx : aws_iot_context_t) topic? callback? st,
       ctx.state ≠ .AWS_IOT_STATE_MQTT_CONNECTED →
       dms_aws_iot_subscribe ctx topic? callback? st = (.DMS_ERROR_NETWORK_FAILURE, ctx)) ∧
    (∀ (ctx : aws_iot_context_t) topic callback st,
       (dms_aws_iot_subscribe ctx (some topic) (some callback) st).1 = .DMS_SUCCESS →
       (dms_aws_iot_subscribe ctx (some topic) (some callback) st).2.message_callback =
         some callback) ∧
    (∀ (ctx : aws_iot_context_t) topic1 topic2 callback1 callback2 st1 st2,
       (dms_aws_iot_subscribe (dms_aws_iot_subscribe ctx (some topic1) (some callback1) st1).2
          (some topic2) (some callback2) st2).1 = .DMS_SUCCESS →
       (dms_aws_iot_subscribe (dms_aws_iot_subscribe ctx (some topic1) (some callback1) st1).2
          (some topic2) (some callback2) st2).2.message_callback = some callback2) := by
  refine ⟨?_, ?_, ?_, ?_⟩
  · intro ctx topic? payload? st h
    simp [dms_aws_iot_publish, h]
  · intro ctx topic? callback? st h
    simp [dms_aws_iot_subscribe, h]
  · intro ctx topic callback st h
    obtain ⟨init, cstate, cb⟩ := ctx
    cases init <;> cases cstate <;> by_cases hst : st = .MQTTSuccess <;>
      simp_all [dms_aws_iot_subscribe]
  · intro ctx topic1 topic2 callback1 callback2 st1 st2 h
    obtain ⟨init, cstate, cb⟩ := ctx
    cases init <;> cases cstate <;>
      by_cases hst1 : st1 = .MQTTSuccess <;> by_cases hst2 : st2 = .MQTTSuccess <;>
      simp_all [dms_aws_iot_subscribe]

/-- C7 witness: concrete disconnected publish/subscribe failures and two
concrete registrations with the last one winning. -/
theorem publish_subscribe_connection_guard_witness :
    dms_aws_iot_publish sample_disconnected_iot (some "a".data) (some "b".data)
      .MQTTSuccess = .DMS_ERROR_NETWORK_FAILURE ∧
    dms_aws_iot_subscribe sample_disconnected_iot (some "a".data) (some 7)
      .MQTTSuccess = (.DMS_ERROR_NETWORK_FAILURE, sample_disconnected_iot) ∧
    (dms_aws_iot_subscribe sample_connected_iot (some "a".data) (some 7)
      .MQTTSuccess).2.message_callback = some 7 ∧
    (dms_aws_iot_subscribe (dms_aws_iot_subscribe sample_connected_iot (some "a".data)
        (some 7) .MQTTSuccess).2 (some "b".data) (some 9)
        .MQTTSuccess).2.message_callback = some 9 :=
  ⟨publish_subscribe_connection_guard.1 sample_disconnected_iot _ _ _ (by decide),
   publish_subscribe_connection_guard.2.1 sample_disconnected_iot _ _ _ (by decide),
   publish_subscribe_connection_guard.2.2.1 sample_connected_iot _ _ _ rfl,
   publish_subscribe_connection_guard.2.2.2 sample_connected_iot _ _ _ _ _ _ rfl⟩

end DMS
